import Mathlib

/-!
# Verification development for `web/web.go`

A shallow embedding of the request handlers of the URL-shortener's `web`
package (`getDefault`, `serveAsset`, the `/edit/` handler and the route table
built by `ListenAndServe`), followed by theorems about them.

Handlers are embedded as computations in `Run`: a trace of the observable
calls the handler makes (in program order) together with the way the handler
is left (normal return, or a panic and its value).
-/

namespace Web

/-! ## Library values -/

/-- Go's `http.StatusTemporaryRedirect`. -/
def StatusTemporaryRedirect : Nat := 307

/-- Go's `time.Minute`, a `time.Duration` in nanoseconds. -/
def Minute : Nat := 60 * 1000000000

/-- A Go `context.Context`, recorded by the way it was derived. Every derived
context is an object of its own: `tag` and `ident` tell apart two contexts
derived the same way. -/
inductive Context where
  | background : Context
  | withCancel (parent : Context) (tag : Nat) : Context
  | withTimeout (parent : Context) (timeout : Nat) (ident : Nat) : Context
  deriving DecidableEq, Repr

/-- The contexts a context was derived from, nearest first (itself excluded). -/
def Context.ancestors : Context → List Context
  | .background => []
  | .withCancel parent _ => parent :: parent.ancestors
  | .withTimeout parent _ _ => parent :: parent.ancestors

/-- A number above every identity in use in a context and in the contexts it was
derived from: the identity of the next context made once `c` exists. -/
def Context.bound : Context → Nat
  | .background => 0
  | .withCancel parent tag => max (tag + 1) parent.bound
  | .withTimeout parent _ ident => max (ident + 1) parent.bound

/-- Whether `ctx` is `c` or was derived from `c`. -/
def Context.derivedFrom (ctx c : Context) : Bool :=
  decide (ctx = c) || decide (c ∈ ctx.ancestors)

/-- Whether cancelling `c` cancels `ctx`: cancellation of a context reaches exactly
the contexts derived from it, and `context.Background()` is never cancelled. -/
def Context.cancelledWith (ctx c : Context) : Bool :=
  decide (c ≠ Context.background) && ctx.derivedFrom c

/-- A Go `error` value: a value made by `errors.New` (told apart by identity),
or an error wrapping another one (`fmt.Errorf` with `%w`). -/
inductive GoError where
  | new (ident : Nat) (text : String) : GoError
  | wrap (text : String) (inner : GoError) : GoError
  deriving DecidableEq, Repr

/-- The `Error()` method. -/
def GoError.Error : GoError → String
  | .new _ text => text
  | .wrap text _ => text

/-- The loop of Go's `errors.Is` on a non-nil error: compare, then unwrap. -/
def GoError.is (err target : GoError) : Bool :=
  if err = target then true
  else match err with
    | .new _ _ => false
    | .wrap _ inner => inner.is target

/-- Go's `errors.Is(err, target)` for a non-nil target; `none` is the nil error. -/
def errorsIs (err : Option GoError) (target : GoError) : Bool :=
  match err with
  | none => false
  | some e => e.is target

/-! ## Data of the package -/

/-- The part of `backend.Route` the handlers read. -/
structure Route where
  URL : String
  deriving DecidableEq, Repr

/-- The part of `backend.Backend` that `getDefault` calls. `Get` returns the Go
pair `(rt, err)`. -/
structure Backend where
  Get : Context → String → Route × Option GoError

/-- The part of `*http.Request` the handlers read: `r.URL.Path` and `r.Context()`. -/
structure Request where
  Path : String
  ctx : Context

/-- What `AssetInfo` returns on success: `Name()` and `ModTime()`. -/
structure AssetInfoValue where
  Name : String
  ModTime : Nat
  deriving DecidableEq, Repr

/-- Declarations of the package that `web.go` uses and that live in other files:
the name helpers, the not-found sentinel of package `internal` and the bundled
assets. `none` from an asset function is its non-nil error. -/
structure Helpers where
  parseName : String → String → String
  cleanName : String → String
  isBannedName : String → Bool
  ErrRouteNotFound : GoError
  AssetInfo : String → Option AssetInfoValue
  Asset : String → Option (List Nat)

/-! ## Handler computations -/

/-- The calls a handler makes that are visible outside it. -/
inductive Effect where
  /-- Call of `http.Redirect(w, r, url, code)`. -/
  | redirect (url : String) (code : Nat) : Effect
  /-- Call of `context.WithTimeout(parent, timeout)`. -/
  | newTimeout (parent : Context) (timeout : Nat) : Effect
  /-- The `cancel` function of the context. -/
  | cancel (ctx : Context) : Effect
  /-- Call of `backend.Get(ctx, name)`. -/
  | get (ctx : Context) (name : String) : Effect
  /-- The line that `log.Panic` prints before panicking. -/
  | logOutput (line : String) : Effect
  /-- Call of `http.NotFound(w, r)`. -/
  | notFound : Effect
  /-- Call of `http.ServeContent(w, r, name, modTime, content)`. -/
  | serveContent (name : String) (modTime : Nat) (content : List Nat) : Effect
  deriving DecidableEq, Repr

/-- How a Go function is left. -/
inductive Exit (α : Type) where
  | returned (value : α) : Exit α
  | panicked (value : String) : Exit α
  deriving DecidableEq, Repr

/-- A run of handler code: its effects in order, and how it was left. -/
structure Run (α : Type) where
  trace : List Effect
  exit : Exit α

/-- Nothing happens. -/
def Run.pure {α : Type} (a : α) : Run α := ⟨[], .returned a⟩

/-- Sequencing of statements: a panic skips the statements after it. -/
def Run.bind {α β : Type} (m : Run α) (f : α → Run β) : Run β :=
  match m.exit with
  | .returned a => ⟨m.trace ++ (f a).trace, (f a).exit⟩
  | .panicked v => ⟨m.trace, .panicked v⟩

instance : Monad Run where
  pure := Run.pure
  bind := Run.bind

/-- One visible call. -/
def emit (e : Effect) : Run Unit := ⟨[e], .returned ()⟩

/-- Go's `defer`: the deferred calls run when the body is left, by return or by
panic, before the caller goes on. -/
def deferring {α : Type} (deferred : List Effect) (body : Run α) : Run α :=
  ⟨body.trace ++ deferred, body.exit⟩

/-- Go's `log.Panic(err)`: prints `fmt.Sprint(err)`, then panics with that string. -/
def logPanic {α : Type} (err : GoError) : Run α :=
  ⟨[.logOutput err.Error], .panicked err.Error⟩

/-- The function `serveAsset` of `web.go`. -/
def serveAsset (h : Helpers) (name : String) : Run Unit :=
  match h.AssetInfo name with
  | none => emit .notFound
  | some n =>
    match h.Asset name with
    | none => emit .notFound
    | some a => emit (.serveContent n.Name n.ModTime a)

/-- The context that `getDefault` makes while serving `r`:
`context.WithTimeout(context.Background(), time.Minute)`, a new object, made
after the request's context exists. -/
def getDefaultCtx (r : Request) : Context :=
  Context.withTimeout Context.background Minute r.ctx.bound

/-- The function `getDefault` of `web.go`. -/
def getDefault (h : Helpers) (backend : Backend) (r : Request) : Run Unit :=
  let p := h.parseName "/" r.Path
  if p = "" then
    emit (.redirect "/edit/" StatusTemporaryRedirect)
  else do
    let ctx := getDefaultCtx r
    emit (.newTimeout Context.background Minute)
    deferring [.cancel ctx] do
      emit (.get ctx p)
      let (rt, err) := backend.Get ctx p
      if errorsIs err h.ErrRouteNotFound then
        emit (.redirect ("/edit/" ++ h.cleanName p) StatusTemporaryRedirect)
      else do
        match err with
        | some e => logPanic e
        | none => Run.pure ()
        emit (.redirect rt.URL StatusTemporaryRedirect)

/-- The handler that `ListenAndServe` registers for `/edit/` (the function handed to
`samlSP.RequireAccount`). -/
def editHandler (h : Helpers) (r : Request) : Run Unit :=
  let p := h.parseName "/edit/" r.Path
  if h.isBannedName p then
    emit (.redirect ("/" ++ p) StatusTemporaryRedirect)
  else
    serveAsset h "edit.html"

/-! ## The route table -/

/-- The handlers of the package that a route can name. -/
inductive HandlerId where
  | hello | samlSP | apiURL | apiURLs | getDefault | edit | getLinks | static
  | version | healthz | admin
  deriving DecidableEq, Repr

/-- One `mux.Handle(pattern, handler)` call: the pattern, whether the handler is
wrapped in `samlSP.RequireAccount`, and the handler. -/
structure MuxEntry where
  pattern : String
  requireAccount : Bool
  handler : HandlerId
  deriving DecidableEq, Repr

/-- The `mux.Handle` calls of `ListenAndServe`, in program order; `admin` is the
value of `viper.GetBool("admin")`. -/
def routeTable (admin : Bool) : List MuxEntry :=
  [ ⟨"/hello", true, .hello⟩,
    ⟨"/saml/", false, .samlSP⟩,
    ⟨"/api/url/", true, .apiURL⟩,
    ⟨"/api/urls/", true, .apiURLs⟩,
    ⟨"/edit/", true, .edit⟩,
    ⟨"/links/", true, .getLinks⟩,
    ⟨"/s/", true, .static⟩,
    ⟨"/version", true, .version⟩,
    ⟨"/healthz", true, .healthz⟩ ]
  ++ (if admin then [⟨"/admin/", false, .admin⟩] else [])

/-- Go's `strings.HasPrefix(s, p)`. -/
def hasPrefix (s p : String) : Bool := p.data.isPrefixOf s.data

/-- Whether a pattern ends in a slash, which makes it match a whole subtree. -/
def endsInSlash (pattern : String) : Bool := pattern.data.getLast? = some '/'

/-- The longer of two candidate entries, the earlier one on a tie. -/
def longerEntry (best : Option MuxEntry) (e : MuxEntry) : Option MuxEntry :=
  match best with
  | none => some e
  | some b => if b.pattern.data.length < e.pattern.data.length then some e else some b

/-- Go's `ServeMux.match`: an exact match first, otherwise the longest
registered subtree pattern that is a prefix of the path. -/
def muxMatch (table : List MuxEntry) (path : String) : Option MuxEntry :=
  match table.find? (fun e => decide (e.pattern = path)) with
  | some e => some e
  | none =>
    (table.filter (fun e => endsInSlash e.pattern && hasPrefix path e.pattern)).foldl
      longerEntry none

/-- Go's `ServeMux.ServeHTTP` for a path in cleaned form: a path `/tree` with only
`/tree/` registered is redirected there (301), a matched path runs its
handler, any other path gets `http.NotFoundHandler`. `run` gives each
handler its behaviour. -/
def muxServe (table : List MuxEntry) (run : HandlerId → Request → Run Unit)
    (r : Request) : Run Unit :=
  if (table.find? (fun e => decide (e.pattern = r.Path))).isNone
      && (table.find? (fun e => decide (e.pattern = r.Path ++ "/"))).isSome then
    emit (.redirect (r.Path ++ "/") 301)
  else
    match muxMatch table r.Path with
    | some e => run e.handler r
    | none => emit .notFound

/-! ## Reading a trace -/

/-- The `(url, code)` arguments of the redirects of a trace, in order. -/
def redirects : List Effect → List (String × Nat)
  | [] => []
  | .redirect url code :: rest => (url, code) :: redirects rest
  | _ :: rest => redirects rest

/-- Whether an effect writes a response. -/
def Effect.isResponse : Effect → Bool
  | .redirect _ _ => true
  | .notFound => true
  | .serveContent _ _ _ => true
  | _ => false

/-- Whether an effect is a call of `backend.Get`. -/
def Effect.isGet : Effect → Bool
  | .get _ _ => true
  | _ => false

/-- Whether an effect is a call of a context's cancel function. -/
def Effect.isCancel : Effect → Bool
  | .cancel _ => true
  | _ => false

/-- Whether an effect creates a timeout context. -/
def Effect.isNewTimeout : Effect → Bool
  | .newTimeout _ _ => true
  | _ => false

/-- Whether an effect is a line written to the log. -/
def Effect.isLog : Effect → Bool
  | .logOutput _ => true
  | _ => false

/-- The contexts handed to `backend.Get` in a trace, in order. -/
def getContexts : List Effect → List Context
  | [] => []
  | .get ctx _ :: rest => ctx :: getContexts rest
  | _ :: rest => getContexts rest

/-! ## Concrete instances for evaluation -/

/-- Modelled from the spec: `parseName` is declared outside `web.go`; by the
spec (4.1) it strips the route prefix from the path and returns the remainder
with a leading `/` stripped, so that `/` under prefix `/` gives the empty
name and (8) the result under prefix `/` never starts with `/`. -/
def parseName (base path : String) : String :=
  String.mk ((path.data.drop base.data.length).dropWhile (fun c => c == '/'))

/-- Modelled from the spec: `cleanName` is declared outside `web.go`; the spec
does not say what it removes, and gives the edit target of a parsed name `n`
both as `"/edit/" + cleanName(n)` (4.4) and as `"/edit/" + n` (8). This
instance leaves a name unchanged. -/
def cleanName (name : String) : String := name

/-- Modelled from the spec: `isBannedName` is declared outside `web.go`; by the
spec (4.2, 8) the reserved set holds at least the edit-route token and
`api`. -/
def isBannedName (name : String) : Bool := decide (name ∈ ["edit", "api"])

/-- The not-found sentinel in the concrete instance. -/
def sampleNotFound : GoError := .new 0 "route not found"

/-- A concrete set of helpers: the three name helpers above and a bundle that
holds `edit.html`. -/
def sampleHelpers : Helpers where
  parseName := parseName
  cleanName := cleanName
  isBannedName := isBannedName
  ErrRouteNotFound := sampleNotFound
  AssetInfo := fun name => if name = "edit.html" then some ⟨"edit.html", 0⟩ else none
  Asset := fun name => if name = "edit.html" then some [60, 112, 62] else none

/-- A backend that maps `foo` to `https://example.com`, fails on `boom` with an
I/O error, and reports every other name as not found, wrapping the
sentinel. -/
def sampleBackend : Backend where
  Get := fun _ name =>
    if name = "foo" then (⟨"https://example.com"⟩, none)
    else if name = "boom" then (⟨""⟩, some (.new 7 "disk failure"))
    else (⟨""⟩, some (.wrap "get: route not found" sampleNotFound))

/-! ## Shared lemmas -/

/-- No context is its own successor: a timeout context made after `c` exists
is not `c`. -/
theorem withTimeout_bound_ne (c parent : Context) (timeout : Nat) :
    Context.withTimeout parent timeout c.bound ≠ c := by
  intro heq
  have hb := congrArg Context.bound heq
  simp only [Context.bound] at hb
  omega

/-- The context `getDefault` makes is not the request's context. -/
theorem getDefaultCtx_ne_request (r : Request) : getDefaultCtx r ≠ r.ctx :=
  withTimeout_bound_ne r.ctx Context.background Minute

/-- The run of `getDefault` when the backend finds the route. -/
theorem getDefault_run_found (h : Helpers) (backend : Backend) (r : Request) (rt : Route)
    (hp : h.parseName "/" r.Path ≠ "")
    (hget : backend.Get (getDefaultCtx r) (h.parseName "/" r.Path) = (rt, none)) :
    getDefault h backend r =
      ⟨[.newTimeout Context.background Minute,
        .get (getDefaultCtx r) (h.parseName "/" r.Path),
        .redirect rt.URL StatusTemporaryRedirect,
        .cancel (getDefaultCtx r)], .returned ()⟩ := by
  simp [getDefault, hp, hget, errorsIs, bind, Run.bind, Run.pure, emit, deferring]

/-- The run of `getDefault` when the backend reports the route as not found. -/
theorem getDefault_run_notFound (h : Helpers) (backend : Backend) (r : Request)
    (rt : Route) (err : GoError)
    (hp : h.parseName "/" r.Path ≠ "")
    (hget : backend.Get (getDefaultCtx r) (h.parseName "/" r.Path) = (rt, some err))
    (hnf : errorsIs (some err) h.ErrRouteNotFound = true) :
    getDefault h backend r =
      ⟨[.newTimeout Context.background Minute,
        .get (getDefaultCtx r) (h.parseName "/" r.Path),
        .redirect ("/edit/" ++ h.cleanName (h.parseName "/" r.Path)) StatusTemporaryRedirect,
        .cancel (getDefaultCtx r)], .returned ()⟩ := by
  simp [getDefault, hp, hget, hnf, bind, Run.bind, emit, deferring]

/-- The run of `getDefault` when the backend fails with another error. -/
theorem getDefault_run_error (h : Helpers) (backend : Backend) (r : Request)
    (rt : Route) (err : GoError)
    (hp : h.parseName "/" r.Path ≠ "")
    (hget : backend.Get (getDefaultCtx r) (h.parseName "/" r.Path) = (rt, some err))
    (herr : errorsIs (some err) h.ErrRouteNotFound = false) :
    getDefault h backend r =
      ⟨[.newTimeout Context.background Minute,
        .get (getDefaultCtx r) (h.parseName "/" r.Path),
        .logOutput err.Error,
        .cancel (getDefaultCtx r)], .panicked err.Error⟩ := by
  simp [getDefault, hp, hget, herr, bind, Run.bind, emit, deferring, logPanic]

/-! ## The default handler -/

/-- C1: when the parsed name is not empty and `Get` returns a route `rt` with a nil
error, `getDefault` writes exactly one response, a redirect with status 307
to `rt.URL` as returned, and returns normally. -/
theorem getDefault_found_redirects_to_url (h : Helpers) (backend : Backend)
    (r : Request) (rt : Route)
    (hp : h.parseName "/" r.Path ≠ "")
    (hget : backend.Get (getDefaultCtx r) (h.parseName "/" r.Path) = (rt, none)) :
    (getDefault h backend r).trace.filter Effect.isResponse = [.redirect rt.URL 307]
      ∧ redirects (getDefault h backend r).trace = [(rt.URL, 307)]
      ∧ (getDefault h backend r).exit = .returned () := by
  rw [getDefault_run_found h backend r rt hp hget]
  simp [Effect.isResponse, redirects, StatusTemporaryRedirect]

/-- Witness of C1: path `/foo` on the sample backend, which maps `foo`. -/
theorem getDefault_found_redirects_to_url_witness :
    (getDefault sampleHelpers sampleBackend ⟨"/foo", .background⟩).trace.filter
        Effect.isResponse = [.redirect "https://example.com" 307]
      ∧ redirects (getDefault sampleHelpers sampleBackend ⟨"/foo", .background⟩).trace
        = [("https://example.com", 307)]
      ∧ (getDefault sampleHelpers sampleBackend ⟨"/foo", .background⟩).exit
        = .returned () :=
  getDefault_found_redirects_to_url sampleHelpers sampleBackend ⟨"/foo", .background⟩
    ⟨"https://example.com"⟩ (by decide) (by decide)

/-- C2: when the parsed name `p` is not empty and `Get` returns an error for which
`errors.Is(err, ErrRouteNotFound)` holds (the sentinel or an error wrapping it),
`getDefault` redirects with status 307 to `"/edit/" ++ cleanName(p)`, returns
without a panic and writes nothing to the log. -/
theorem getDefault_notFound_redirects_to_edit (h : Helpers) (backend : Backend)
    (r : Request) (rt : Route) (err : GoError)
    (hp : h.parseName "/" r.Path ≠ "")
    (hget : backend.Get (getDefaultCtx r) (h.parseName "/" r.Path) = (rt, some err))
    (hnf : errorsIs (some err) h.ErrRouteNotFound = true) :
    (getDefault h backend r).trace.filter Effect.isResponse
        = [.redirect ("/edit/" ++ h.cleanName (h.parseName "/" r.Path)) 307]
      ∧ (getDefault h backend r).exit = .returned ()
      ∧ (getDefault h backend r).trace.filter Effect.isLog = [] := by
  rw [getDefault_run_notFound h backend r rt err hp hget hnf]
  simp [Effect.isResponse, Effect.isLog, StatusTemporaryRedirect]

/-- Witness of C2: path `/bar` on the sample backend, whose error wraps the
sentinel. -/
theorem getDefault_notFound_redirects_to_edit_witness :
    (getDefault sampleHelpers sampleBackend ⟨"/bar", .background⟩).trace.filter
        Effect.isResponse = [.redirect "/edit/bar" 307]
      ∧ (getDefault sampleHelpers sampleBackend ⟨"/bar", .background⟩).exit
        = .returned ()
      ∧ (getDefault sampleHelpers sampleBackend ⟨"/bar", .background⟩).trace.filter
        Effect.isLog = [] :=
  getDefault_notFound_redirects_to_edit sampleHelpers sampleBackend
    ⟨"/bar", .background⟩ ⟨""⟩ (.wrap "get: route not found" sampleNotFound)
    (by decide) (by decide) (by decide)

/-- C3: when the parsed name is not empty and `Get` returns a non-nil error that is
not a route-not-found error, `getDefault` ends in a panic that carries the
error (its text, as `log.Panic` formats it) right after the one call of
`Get`: no redirect is written and `Get` is called once. -/
theorem getDefault_backend_error_panics (h : Helpers) (backend : Backend)
    (r : Request) (rt : Route) (err : GoError)
    (hp : h.parseName "/" r.Path ≠ "")
    (hget : backend.Get (getDefaultCtx r) (h.parseName "/" r.Path) = (rt, some err))
    (herr : errorsIs (some err) h.ErrRouteNotFound = false) :
    (getDefault h backend r).exit = .panicked err.Error
      ∧ redirects (getDefault h backend r).trace = []
      ∧ (getDefault h backend r).trace.filter Effect.isResponse = []
      ∧ (getDefault h backend r).trace.filter Effect.isGet
        = [.get (getDefaultCtx r) (h.parseName "/" r.Path)]
      ∧ (getDefault h backend r).trace =
        [.newTimeout Context.background Minute,
         .get (getDefaultCtx r) (h.parseName "/" r.Path),
         .logOutput err.Error,
         .cancel (getDefaultCtx r)] := by
  rw [getDefault_run_error h backend r rt err hp hget herr]
  simp [Effect.isResponse, Effect.isGet, redirects]

/-- Witness of C3: path `/boom` on the sample backend, which fails with an I/O
error. -/
theorem getDefault_backend_error_panics_witness :
    (getDefault sampleHelpers sampleBackend ⟨"/boom", .background⟩).exit
        = .panicked "disk failure"
      ∧ redirects (getDefault sampleHelpers sampleBackend ⟨"/boom", .background⟩).trace
        = []
      ∧ (getDefault sampleHelpers sampleBackend ⟨"/boom", .background⟩).trace.filter
        Effect.isResponse = []
      ∧ (getDefault sampleHelpers sampleBackend ⟨"/boom", .background⟩).trace.filter
        Effect.isGet = [.get (getDefaultCtx ⟨"/boom", .background⟩) "boom"]
      ∧ (getDefault sampleHelpers sampleBackend ⟨"/boom", .background⟩).trace =
        [.newTimeout Context.background Minute,
         .get (getDefaultCtx ⟨"/boom", .background⟩) "boom",
         .logOutput "disk failure",
         .cancel (getDefaultCtx ⟨"/boom", .background⟩)] :=
  getDefault_backend_error_panics sampleHelpers sampleBackend ⟨"/boom", .background⟩
    ⟨""⟩ (.new 7 "disk failure") (by decide) (by decide) (by decide)

/-- C5: when the parsed name is empty, for every backend, `getDefault` redirects
with status 307 to exactly `/edit/`, never calls `Get` and creates no timeout
context. -/
theorem getDefault_empty_name_redirects (h : Helpers) (backend : Backend) (r : Request)
    (hp : h.parseName "/" r.Path = "") :
    (getDefault h backend r).trace = [.redirect "/edit/" 307]
      ∧ (getDefault h backend r).exit = .returned ()
      ∧ (getDefault h backend r).trace.filter Effect.isGet = []
      ∧ (getDefault h backend r).trace.filter Effect.isNewTimeout = [] := by
  simp [getDefault, hp, emit, Effect.isGet, Effect.isNewTimeout, StatusTemporaryRedirect]

/-- Witness of C5: path `/` on the sample backend. -/
theorem getDefault_empty_name_redirects_witness :
    (getDefault sampleHelpers sampleBackend ⟨"/", .background⟩).trace
        = [.redirect "/edit/" 307]
      ∧ (getDefault sampleHelpers sampleBackend ⟨"/", .background⟩).exit = .returned ()
      ∧ (getDefault sampleHelpers sampleBackend ⟨"/", .background⟩).trace.filter
        Effect.isGet = []
      ∧ (getDefault sampleHelpers sampleBackend ⟨"/", .background⟩).trace.filter
        Effect.isNewTimeout = [] :=
  getDefault_empty_name_redirects sampleHelpers sampleBackend ⟨"/", .background⟩
    (by decide)

/-- C8, as stated, fails: for path `/foo` on a request whose context is a cancellable
child of the background context, the context handed to `Get` is not derived
from the request's context, and cancelling the request's context does not
cancel it. -/
theorem getDefault_context_counterexample :
    sampleHelpers.parseName "/" "/foo" ≠ ""
      ∧ getContexts (getDefault sampleHelpers sampleBackend
          ⟨"/foo", .withCancel .background 1⟩).trace
          = [getDefaultCtx ⟨"/foo", .withCancel .background 1⟩]
      ∧ (getDefaultCtx ⟨"/foo", .withCancel .background 1⟩).derivedFrom
          (Context.withCancel .background 1) = false
      ∧ (getDefaultCtx ⟨"/foo", .withCancel .background 1⟩).cancelledWith
          (Context.withCancel .background 1) = false := by
  decide

/-- C8, amended: for every request with a non-empty parsed name, the one context
handed to `Get` is a new `context.WithTimeout(context.Background(), time.Minute)`:
it is derived from the background context alone, it is not the request's
context and not derived from it (unless that is the background context, from
which every context derives), so cancelling the request's context does not
cancel it; the only context whose cancellation reaches it is itself. -/
theorem getDefault_context_from_background (h : Helpers) (backend : Backend)
    (r : Request) (hp : h.parseName "/" r.Path ≠ "") :
    getContexts (getDefault h backend r).trace
        = [Context.withTimeout Context.background (60 * 1000000000) r.ctx.bound]
      ∧ (getDefaultCtx r).ancestors = [Context.background]
      ∧ getDefaultCtx r ≠ r.ctx
      ∧ ((getDefaultCtx r).derivedFrom r.ctx = true ↔ r.ctx = Context.background)
      ∧ (getDefaultCtx r).cancelledWith r.ctx = false
      ∧ ∀ c : Context, (getDefaultCtx r).cancelledWith c = true ↔ c = getDefaultCtx r := by
  have hne : getDefaultCtx r ≠ r.ctx := getDefaultCtx_ne_request r
  refine ⟨?_, rfl, hne, ?_, ?_, ?_⟩
  · rcases hres : backend.Get (getDefaultCtx r) (h.parseName "/" r.Path) with ⟨rt, err⟩
    cases err with
    | none =>
      rw [getDefault_run_found h backend r rt hp hres]
      simp [getContexts, getDefaultCtx, Minute]
    | some e =>
      cases hnf : errorsIs (some e) h.ErrRouteNotFound with
      | true =>
        rw [getDefault_run_notFound h backend r rt e hp hres hnf]
        simp [getContexts, getDefaultCtx, Minute]
      | false =>
        rw [getDefault_run_error h backend r rt e hp hres hnf]
        simp [getContexts, getDefaultCtx, Minute]
  · simp only [Context.derivedFrom, Bool.or_eq_true, decide_eq_true_eq]
    constructor
    · rintro (heq | hmem)
      · exact absurd heq hne
      · simpa [getDefaultCtx, Context.ancestors] using hmem
    · intro hbg
      right
      rw [hbg]
      simp [getDefaultCtx, Context.ancestors]
  · cases hc : (getDefaultCtx r).cancelledWith r.ctx with
    | false => rfl
    | true =>
      exfalso
      simp only [Context.cancelledWith, Context.derivedFrom, getDefaultCtx,
        Context.ancestors, Bool.and_eq_true, Bool.or_eq_true, decide_eq_true_eq,
        List.mem_singleton] at hc
      rcases hc with ⟨hnb, heq | hbg⟩
      · exact hne heq
      · exact hnb hbg
  · intro c
    constructor
    · intro hc
      simp only [Context.cancelledWith, Context.derivedFrom, getDefaultCtx,
        Context.ancestors, Bool.and_eq_true, Bool.or_eq_true, decide_eq_true_eq,
        List.mem_singleton] at hc
      rcases hc with ⟨hnb, heq | hbg⟩
      · exact heq.symm
      · exact absurd hbg hnb
    · intro hc
      subst hc
      simp [Context.cancelledWith, Context.derivedFrom, getDefaultCtx]

/-- Witness of amended C8: path `/foo` on a request with a cancellable context. -/
theorem getDefault_context_from_background_witness :
    getContexts (getDefault sampleHelpers sampleBackend
          ⟨"/foo", .withCancel .background 1⟩).trace
        = [Context.withTimeout Context.background (60 * 1000000000) 2]
      ∧ (getDefaultCtx ⟨"/foo", .withCancel .background 1⟩).cancelledWith
          (Context.withCancel .background 1) = false :=
  ⟨(getDefault_context_from_background sampleHelpers sampleBackend
      ⟨"/foo", .withCancel .background 1⟩ (by decide)).1,
   (getDefault_context_from_background sampleHelpers sampleBackend
      ⟨"/foo", .withCancel .background 1⟩ (by decide)).2.2.2.2.1⟩

/-- C9: on every run of `getDefault` that creates the timeout context (a non-empty
parsed name), the context's cancel function is called exactly once, as the
last call before the handler is left, on each of the three exits: found,
not found, and backend error (panic). -/
theorem getDefault_cancels_once (h : Helpers) (backend : Backend) (r : Request)
    (hp : h.parseName "/" r.Path ≠ "") :
    (getDefault h backend r).trace.filter Effect.isCancel = [.cancel (getDefaultCtx r)]
      ∧ (getDefault h backend r).trace.filter Effect.isNewTimeout
          = [.newTimeout Context.background Minute]
      ∧ (getDefault h backend r).trace.head?
          = some (.newTimeout Context.background Minute)
      ∧ (getDefault h backend r).trace.getLast? = some (.cancel (getDefaultCtx r))
      ∧ ((∃ rt : Route,
            (getDefault h backend r).trace =
              [.newTimeout Context.background Minute,
               .get (getDefaultCtx r) (h.parseName "/" r.Path),
               .redirect rt.URL 307,
               .cancel (getDefaultCtx r)]
            ∧ (getDefault h backend r).exit = .returned ())
          ∨ ((getDefault h backend r).trace =
              [.newTimeout Context.background Minute,
               .get (getDefaultCtx r) (h.parseName "/" r.Path),
               .redirect ("/edit/" ++ h.cleanName (h.parseName "/" r.Path)) 307,
               .cancel (getDefaultCtx r)]
            ∧ (getDefault h backend r).exit = .returned ())
          ∨ (∃ err : GoError,
            (getDefault h backend r).trace =
              [.newTimeout Context.background Minute,
               .get (getDefaultCtx r) (h.parseName "/" r.Path),
               .logOutput err.Error,
               .cancel (getDefaultCtx r)]
            ∧ (getDefault h backend r).exit = .panicked err.Error)) := by
  rcases hres : backend.Get (getDefaultCtx r) (h.parseName "/" r.Path) with ⟨rt, err⟩
  cases err with
  | none =>
    rw [getDefault_run_found h backend r rt hp hres]
    refine ⟨by simp [Effect.isCancel], by simp [Effect.isNewTimeout], by simp,
      by simp, Or.inl ⟨rt, by simp [StatusTemporaryRedirect]⟩⟩
  | some e =>
    cases hnf : errorsIs (some e) h.ErrRouteNotFound with
    | true =>
      rw [getDefault_run_notFound h backend r rt e hp hres hnf]
      refine ⟨by simp [Effect.isCancel], by simp [Effect.isNewTimeout], by simp,
        by simp, Or.inr (Or.inl (by simp [StatusTemporaryRedirect]))⟩
    | false =>
      rw [getDefault_run_error h backend r rt e hp hres hnf]
      refine ⟨by simp [Effect.isCancel], by simp [Effect.isNewTimeout], by simp,
        by simp, Or.inr (Or.inr ⟨e, by simp⟩)⟩

/-- Witness of C9: the three exits, on paths `/foo` (found), `/bar` (not found) and
`/boom` (backend error). -/
theorem getDefault_cancels_once_witness :
    ((getDefault sampleHelpers sampleBackend ⟨"/foo", .background⟩).trace.filter
          Effect.isCancel = [.cancel (getDefaultCtx ⟨"/foo", .background⟩)]
        ∧ (getDefault sampleHelpers sampleBackend ⟨"/foo", .background⟩).exit
          = .returned ())
      ∧ ((getDefault sampleHelpers sampleBackend ⟨"/bar", .background⟩).trace.filter
          Effect.isCancel = [.cancel (getDefaultCtx ⟨"/bar", .background⟩)]
        ∧ (getDefault sampleHelpers sampleBackend ⟨"/bar", .background⟩).exit
          = .returned ())
      ∧ ((getDefault sampleHelpers sampleBackend ⟨"/boom", .background⟩).trace.filter
          Effect.isCancel = [.cancel (getDefaultCtx ⟨"/boom", .background⟩)]
        ∧ (getDefault sampleHelpers sampleBackend ⟨"/boom", .background⟩).exit
          = .panicked "disk failure") :=
  ⟨⟨(getDefault_cancels_once sampleHelpers sampleBackend ⟨"/foo", .background⟩
        (by decide)).1, by decide⟩,
   ⟨(getDefault_cancels_once sampleHelpers sampleBackend ⟨"/bar", .background⟩
        (by decide)).1, by decide⟩,
   ⟨(getDefault_cancels_once sampleHelpers sampleBackend ⟨"/boom", .background⟩
        (by decide)).1, by decide⟩⟩

/-! ## The edit handler -/

/-- C4: with `p = parseName("/edit/", path)`, the `/edit/` handler, when `p` is banned,
writes one response, a redirect with status 307 to `"/" ++ p`, and serves no
asset; when `p` is not banned it does what `serveAsset` does for `edit.html`,
which writes the bundled content and in no case a redirect. -/
theorem editHandler_banned_or_asset (h : Helpers) (r : Request) :
    (h.isBannedName (h.parseName "/edit/" r.Path) = true →
        (editHandler h r).trace = [.redirect ("/" ++ h.parseName "/edit/" r.Path) 307]
        ∧ (editHandler h r).exit = .returned ())
      ∧ (h.isBannedName (h.parseName "/edit/" r.Path) = false →
        editHandler h r = serveAsset h "edit.html"
        ∧ redirects (editHandler h r).trace = []
        ∧ (editHandler h r).exit = .returned ()
        ∧ ((editHandler h r).trace = [.notFound]
            ∨ ∃ n a, h.AssetInfo "edit.html" = some n ∧ h.Asset "edit.html" = some a
                ∧ (editHandler h r).trace = [.serveContent n.Name n.ModTime a])) := by
  constructor
  · intro hb
    simp [editHandler, hb, emit, StatusTemporaryRedirect]
  · intro hb
    simp only [editHandler, hb, serveAsset]
    cases h.AssetInfo "edit.html" with
    | none => simp [emit, redirects]
    | some n =>
      cases h.Asset "edit.html" with
      | none => simp [emit, redirects]
      | some a => simp [emit, redirects]

/-- Witness of C4: `/edit/api`, a banned name, is redirected to `/api`; `/edit/x` is
not banned and gets the bundled `edit.html`. -/
theorem editHandler_banned_or_asset_witness :
    ((editHandler sampleHelpers ⟨"/edit/api", .background⟩).trace
          = [.redirect ("/" ++ sampleHelpers.parseName "/edit/" "/edit/api") 307]
        ∧ (editHandler sampleHelpers ⟨"/edit/api", .background⟩).exit = .returned ())
      ∧ (editHandler sampleHelpers ⟨"/edit/x", .background⟩
          = serveAsset sampleHelpers "edit.html"
        ∧ redirects (editHandler sampleHelpers ⟨"/edit/x", .background⟩).trace = []
        ∧ (editHandler sampleHelpers ⟨"/edit/x", .background⟩).trace
          = [.serveContent "edit.html" 0 [60, 112, 62]]) :=
  ⟨(editHandler_banned_or_asset sampleHelpers ⟨"/edit/api", .background⟩).1 (by decide),
   ((editHandler_banned_or_asset sampleHelpers ⟨"/edit/x", .background⟩).2
      (by decide)).1,
   ((editHandler_banned_or_asset sampleHelpers ⟨"/edit/x", .background⟩).2
      (by decide)).2.1,
   by decide⟩

/-! ## The route table -/

/-- C6, evaluated on the code: whatever the admin setting and whatever the handlers
do, the mux built by `ListenAndServe` answers path `/foo` with
`http.NotFoundHandler`; no `mux.Handle` call registers pattern `/` or the
handler `getDefault`, so no path is dispatched to it. -/
theorem routeTable_has_no_default_route (admin : Bool)
    (run : HandlerId → Request → Run Unit) (ctx : Context) :
    muxMatch (routeTable admin) "/foo" = none
      ∧ (muxServe (routeTable admin) run ⟨"/foo", ctx⟩).trace = [.notFound]
      ∧ redirects (muxServe (routeTable admin) run ⟨"/foo", ctx⟩).trace = []
      ∧ (routeTable admin).filter
          (fun e => decide (e.pattern = "/") || decide (e.handler = HandlerId.getDefault))
          = [] := by
  have hm : muxMatch (routeTable admin) "/foo" = none := by
    cases admin <;> decide
  have hs : (((routeTable admin).find? (fun e => decide (e.pattern = "/foo"))).isNone
      && ((routeTable admin).find? (fun e => decide (e.pattern = "/foo" ++ "/"))).isSome)
      = false := by
    cases admin <;> decide
  have hrun : muxServe (routeTable admin) run ⟨"/foo", ctx⟩ = emit .notFound := by
    simp only [muxServe, hs, hm, Bool.false_eq_true, if_false]
  refine ⟨hm, ?_, ?_, ?_⟩
  · rw [hrun]; rfl
  · rw [hrun]; rfl
  · cases admin <;> decide

/-- C10: in the route table of `ListenAndServe`, `/admin/` is registered exactly when
the admin setting is true; the patterns whose handler is not wrapped in
`samlSP.RequireAccount` are `/saml/` and, when registered, `/admin/`; the
wrapped patterns are `/hello`, `/api/url/`, `/api/urls/`, `/edit/`, `/links/`,
`/s/`, `/version` and `/healthz`. -/
theorem routeTable_account_requirements (admin : Bool) :
    ("/admin/" ∈ (routeTable admin).map MuxEntry.pattern ↔ admin = true)
      ∧ ((routeTable admin).filter (fun e => !e.requireAccount)).map MuxEntry.pattern
          = "/saml/" :: (if admin then ["/admin/"] else [])
      ∧ ((routeTable admin).filter (fun e => e.requireAccount)).map MuxEntry.pattern
          = ["/hello", "/api/url/", "/api/urls/", "/edit/", "/links/", "/s/",
             "/version", "/healthz"]
      ∧ (routeTable admin).map MuxEntry.pattern
          = ["/hello", "/saml/", "/api/url/", "/api/urls/", "/edit/", "/links/", "/s/",
             "/version", "/healthz"] ++ (if admin then ["/admin/"] else []) := by
  cases admin <;> decide

end Web
